import Mathlib

set_option maxRecDepth 20000

/-!
Shallow embedding of the OpenKyrozen conversational-agent core
(src/main.py, src/memory.py, src/tools.py) and proofs about it.

Python strings are modelled as `List Char`.  External collaborators are
modelled as parameters, exactly as the specification treats them: the
text-completion oracle (`ollama.chat`), the similarity store (the ChromaDB
collection), Python's `json.loads` decoder and its `str` coercion, and the
capability handler bodies (file system / subprocess / web effects).  Every
piece of control logic of the repository itself is transcribed directly from
the source.
-/

namespace Agent

/-- Python whitespace set used by `str.strip`, `str.split` and the regex
class `\s` (ASCII fragment: space, tab, newline, carriage return, vertical
tab, form feed). -/
def pyIsSpace (c : Char) : Bool :=
  c == ' ' || c == '\t' || c == '\n' || c == '\r' || c == '\x0b' || c == '\x0c'

/-- Python `str.lstrip()`. -/
def pyLstrip (s : List Char) : List Char :=
  s.dropWhile pyIsSpace

/-- Python `str.rstrip()`. -/
def pyRstrip (s : List Char) : List Char :=
  (s.reverse.dropWhile pyIsSpace).reverse

/-- Python `str.strip()`. -/
def pyStrip (s : List Char) : List Char :=
  pyRstrip (pyLstrip s)

/-- Python `str.lower()` (ASCII fragment; the classifier and markers in the
source only rely on ASCII case folding). -/
def pyLower (s : List Char) : List Char :=
  s.map Char.toLower

/-- Python `sep.join(parts)`. -/
def pyJoin (sep : List Char) (parts : List (List Char)) : List Char :=
  List.intercalate sep parts

/-- Python slice `lst[-n:]`: the last `n` elements (the whole list when it is
shorter than `n`). -/
def pyTakeLast (n : Nat) (l : List α) : List α :=
  l.drop (l.length - n)

/-- Message roles used by the agent (src/main.py builds dictionaries with
`role` equal to `"system"`, `"user"` or `"assistant"`). -/
inductive Role where
  | system
  | user
  | assistant
  deriving DecidableEq, Repr

/-- One chat message, `{"role": ..., "content": ...}`. -/
structure Message where
  role : Role
  content : List Char
  deriving DecidableEq, Repr

/-- Outcome of calling a capability handler: a returned string (the `str()`
coercion of the Python return value is absorbed here) or a raised exception
carrying its message. -/
inductive HandlerResult where
  | ok (s : List Char)
  | exn (msg : List Char)

/-- A registered capability: its `__doc__` string and its behaviour.  The
behaviours of the four concrete tools perform file-system / subprocess / web
effects and are therefore parameters of the model. -/
structure ToolFn where
  doc : List Char
  run : List Char → HandlerResult

/-- `AVAILABLE_TOOLS` is a Python dict name → handler; modelled as an
association list with exact-match lookup (src/tools.py line 138). -/
abbrev Registry := List (List Char × ToolFn)

/-- `__doc__` of `write_file` (src/tools.py lines 34-37), verbatim. -/
def write_file_doc : List Char :=
  ("\n    Write content to a file. Args format: \"path|content\".\n    Supports ~ for user home (e.g. ~/Desktop/file.txt).\n    ").toList

/-- `__doc__` of `read_file` (src/tools.py lines 55-58), verbatim. -/
def read_file_doc : List Char :=
  ("\n    Read content from a file. Args format: \"path\".\n    Supports ~ for user home.\n    ").toList

/-- `__doc__` of `run_cmd` (src/tools.py lines 74-77), verbatim. -/
def run_cmd_doc : List Char :=
  ("\n    Execute a shell command. Args: the full command string.\n    Blocks dangerous operations (e.g. rm -rf).\n    ").toList

/-- `__doc__` of `search_web` (src/tools.py lines 103-108), verbatim. -/
def search_web_doc : List Char :=
  ("\n    Search the internet for real-time information.\n    Args format: \"query\" (e.g., \"latest bitcoin price\", \"who won the super bowl\").\n    Returns a summary of the top 3 search results (title, description, URL).\n    Use whenever the user asks for current events, prices, or facts you don\x27t know.\n    ").toList

/-- The initial registry value of src/tools.py lines 138-143, with the four
effectful handler bodies abstracted as parameters. -/
def AVAILABLE_TOOLS (wf rf rc sw : List Char → HandlerResult) : Registry :=
  [ ("write_file".toList, ⟨write_file_doc, wf⟩)
  , ("read_file".toList, ⟨read_file_doc, rf⟩)
  , ("run_cmd".toList, ⟨run_cmd_doc, rc⟩)
  , ("search_web".toList, ⟨search_web_doc, sw⟩) ]

/-- Placeholder behaviour used where only names and docstrings matter
(`_build_tools_list` never looks at a handler's behaviour). -/
def stubRun : List Char → HandlerResult := fun _ => HandlerResult.exn []

/-- The per-tool description computed by `_build_tools_list`
(src/main.py line 47): `doc.strip().replace("\n", " ").strip()`. -/
def toolDesc (doc : List Char) : List Char :=
  pyStrip ((pyStrip doc).map (fun c => if c == '\n' then ' ' else c))

/-- `_build_tools_list` (src/main.py lines 42-49): one `- name: desc` line per
registry entry, joined by newlines. -/
def _build_tools_list (tools : Registry) : List Char :=
  pyJoin ("\n".toList)
    (tools.map (fun kv => "- ".toList ++ kv.1 ++ ": ".toList ++ toolDesc kv.2.doc))

/-- `TOOLS_LIST` (src/main.py line 52): computed once, at import time, from
the startup registry.  It does not depend on the handler behaviours. -/
def TOOLS_LIST : List Char :=
  _build_tools_list (AVAILABLE_TOOLS stubRun stubRun stubRun stubRun)

/-- Contents of the three Markdown prompt files loaded at startup
(`ROLE_CONTENT`, `INSTRUCTIONS_CONTENT`, `EXAMPLES_CONTENT`); external file
contents, hence parameters. -/
structure Prompts where
  role : List Char
  instructions : List Char
  examples : List Char

/-- `_build_system_prompt` (src/main.py lines 55-64). -/
def _build_system_prompt (p : Prompts) (tools_list memory_context : List Char) : List Char :=
  pyJoin ("\n\n".toList)
    [ "[ROLE]\n".toList ++ p.role
    , "[TOOLS]\n".toList ++ tools_list
    , "[INSTRUCTIONS]\n".toList ++ p.instructions
    , "[EXAMPLES]\n".toList ++ p.examples
    , "[MEMORY]\n".toList ++ memory_context ]

/-! ### Long-term memory (src/memory.py) -/

/-- What one ChromaDB `documents` entry may hold: the code defensively
distinguishes `docs[0]` being a list from it being a single value
(src/memory.py line 58). -/
inductive StoreVal where
  | lst (xs : List (List Char))
  | single (s : List Char)

/-- The ChromaDB collection, abstracted: its entry count and its `query`
behaviour.  `query` receives the query text and the requested `n_results` and
either raises or returns the optional `documents` field of the reply. -/
structure Store where
  count : Nat
  query : List Char → Nat → Except (List Char) (Option (List StoreVal))

/-- The `n_results` value actually passed to the store by `MemoryBank.recall`:
`min(n_results, self._collection.count() or 1)` (src/memory.py line 54). -/
def n_requested (count n_results : Nat) : Nat :=
  min n_results (if count = 0 then 1 else count)

/-- `MemoryBank.recall` (src/memory.py lines 47-61).  `if not query or not
query.strip()` collapses to emptiness of the stripped query.  Any exception
from the store degrades to the empty list. -/
def MemoryBank.recall (st : Store) (query : List Char) (n_results : Nat) : List (List Char) :=
  if pyStrip query = [] then []
  else
    match st.query (pyStrip query) (n_requested st.count n_results) with
    | Except.error _ => []
    | Except.ok none => []
    | Except.ok (some []) => []
    | Except.ok (some (StoreVal.lst xs :: _)) => xs
    | Except.ok (some (StoreVal.single s :: _)) => [s]

/-- The diagnostic document written by the fallback branch of
`MemoryBank.add_log` (src/memory.py line 42). -/
def diagDoc (text e : List Char) : List Char :=
  "[add_log error] ".toList ++ text ++ " (error: ".toList ++ e ++ ")".toList

/-- `MemoryBank.add_log` (src/memory.py lines 29-45), with ids/timestamps
(uuid and wall clock) abstracted away and the store's `add` behaviour given by
`beh` (`none` = the add succeeds, `some e` = it raises `e`).  The result is
the list of documents recorded, or the exception that escapes: the fallback
`add` on lines 40-44 is *not* inside the `try`, so its exception propagates. -/
def MemoryBank.add_log (beh : List Char → Option (List Char)) (text : List Char) :
    Except (List Char) (List (List Char)) :=
  match beh text with
  | none => Except.ok [text]
  | some e =>
    match beh (diagDoc text e) with
    | none => Except.ok [diagDoc text e]
    | some e2 => Except.error e2

/-! ### Context assembly (src/main.py lines 76-95) -/

/-- `SHORT_TERM_CAP` (src/main.py line 20). -/
def SHORT_TERM_CAP : Nat := 10

/-- `MAX_TOOL_RETRIES` (src/main.py line 21). -/
def MAX_TOOL_RETRIES : Nat := 3

/-- The `memory_context` string of src/main.py line 82. -/
def memoryContext (recalled : List (List Char)) : List Char :=
  if recalled = [] then "(none)".toList
  else "Relevant past context:\n".toList ++ pyJoin ("\n---\n".toList) recalled

/-- `_build_messages` (src/main.py lines 76-95): system prompt (using the
startup constant `TOOLS_LIST` and a fresh recall for the input), then the
last `SHORT_TERM_CAP * 2` window messages in order, then the user input. -/
def _build_messages (p : Prompts) (st : Store) (window : List Message)
    (user_input : List Char) : List Message :=
  let recalled := MemoryBank.recall st user_input 2
  let system_content := _build_system_prompt p TOOLS_LIST (memoryContext recalled)
  Message.mk Role.system system_content ::
    (pyTakeLast (SHORT_TERM_CAP * 2) window ++ [Message.mk Role.user user_input])

/-! ### Response parsing (src/main.py lines 98-115) -/

/-- JSON values as produced by `json.loads`.  Numbers are modelled as
integers; no parsed value in any claim involves floats. -/
inductive Json where
  | null
  | bool (b : Bool)
  | num (n : Int)
  | str (s : List Char)
  | arr (xs : List Json)
  | obj (kvs : List (List Char × Json))

/-- First index (if any) at which `pat` occurs in `l`. -/
def findSub (pat : List Char) : List Char → Option Nat
  | [] => if pat.isPrefixOf [] then some 0 else none
  | c :: rest =>
    if pat.isPrefixOf (c :: rest) then some 0
    else (findSub pat rest).map (· + 1)

/-- The fence delimiter of the regex on src/main.py line 105. -/
def fenceMark : List Char := "\x60\x60\x60".toList

/-- The `re.search(r"\x60\x60\x60(?:json)?\s*([\s\S]*?)\s*\x60\x60\x60", text)` match with
`.group(1).strip()` applied (src/main.py lines 105-108): take the first fence
occurrence, optionally skip a literal `json` tag, and return the text up to
the next fence occurrence, stripped.  (The regex's greedy `\s*`, the lazy
group and the search restart at later positions reduce to exactly this, since
whitespace never contains a backtick.) -/
def extractFenced (s : List Char) : Option (List Char) :=
  match findSub fenceMark s with
  | none => none
  | some i =>
    let afterOpen := (s.drop (i + 3))
    let body := if "json".toList.isPrefixOf afterOpen then afterOpen.drop 4 else afterOpen
    match findSub fenceMark body with
    | none => none
    | some m => some (pyStrip (body.take m))

/-- Outcome of `parse_json_from_response`: `None`, a returned dict, or an
uncaught exception escaping the function. -/
inductive ParseResult where
  | raised (msg : List Char)
  | none_
  | some_ (d : Json)

/-- The test on src/main.py line 111:
`isinstance(data, dict) and "action" in data and data.get("action") in AVAILABLE_TOOLS`.
Python evaluates dict membership by hashing the candidate key first, so an
unhashable `action` value (a list or a dict) raises `TypeError`, which the
surrounding `except json.JSONDecodeError` does **not** catch. -/
def checkAction (tools : Registry) (d : Json) : ParseResult :=
  match d with
  | Json.obj kvs =>
    match List.lookup "action".toList kvs with
    | none => ParseResult.none_
    | some (Json.arr _) => ParseResult.raised "unhashable type: \x27list\x27".toList
    | some (Json.obj _) => ParseResult.raised "unhashable type: \x27dict\x27".toList
    | some (Json.str a) =>
      if (tools.map Prod.fst).contains a then ParseResult.some_ d else ParseResult.none_
    | some _ => ParseResult.none_
  | _ => ParseResult.none_

/-- `parse_json_from_response` (src/main.py lines 98-115), with `json.loads`
abstracted as `jloads` (returning `none` exactly when it would raise
`json.JSONDecodeError`, the only exception the function catches). -/
def parse_json_from_response (jloads : List Char → Option Json) (tools : Registry)
    (text : List Char) : ParseResult :=
  let t := pyStrip text
  match extractFenced t with
  | none => ParseResult.none_
  | some raw =>
    match jloads raw with
    | none => ParseResult.none_
    | some d => checkAction tools d

/-! ### Capability execution (src/main.py lines 118-126) -/

/-- `_run_tool` (src/main.py lines 118-126). -/
def _run_tool (tools : Registry) (action args : List Char) : List Char :=
  match List.lookup action tools with
  | none => "Error: unknown tool \x27".toList ++ action ++ "\x27".toList
  | some fn =>
    match fn.run args with
    | HandlerResult.ok s => s
    | HandlerResult.exn e => "Error: ".toList ++ e

/-- The success/failure classifier inlined on src/main.py line 177:
`result.strip().lower().startswith("error")`. -/
def classifyFailure (result : List Char) : Bool :=
  "error".toList.isPrefixOf (pyLower (pyStrip result))

/-! ### The per-turn control loop (src/main.py lines 145-201) -/

/-- Everything `_chat_turn` reads from the surrounding process: the prompt
files, the memory bank, the shared conversation window, the tool registry,
Python's `json.loads` and `str` (for the `args` coercion on line 172), and
the oracle.  The oracle is indexed by the number of `_get_llm_response` calls
already made this turn, so an arbitrary (possibly non-functional) sequence of
replies can be expressed; exceptions inside `_get_llm_response` are already
rendered as `"[LLM Error] ..."` text by src/main.py lines 138-142, so the
oracle returns plain text. -/
structure Env where
  prompts : Prompts
  store : Store
  window : List Message
  tools : Registry
  jloads : List Char → Option Json
  pyStr : Json → List Char
  oracle : Nat → List Message → List Char

/-- `action = tool_call.get("action", "")` (src/main.py line 171).  The parser
only returns dicts whose `action` value is a registered name, so the value is
a string there; other shapes default to the empty string. -/
def actionOf (d : Json) : List Char :=
  match d with
  | Json.obj kvs =>
    match List.lookup "action".toList kvs with
    | some (Json.str a) => a
    | _ => []
  | _ => []

/-- `args = tool_call.get("args", "") if isinstance(tool_call.get("args"), str)
else str(tool_call.get("args", ""))` (src/main.py line 172).  A missing key
yields `str("")` = the empty string. -/
def argsOf (pyStr : Json → List Char) (d : Json) : List Char :=
  match d with
  | Json.obj kvs =>
    match List.lookup "args".toList kvs with
    | some (Json.str s) => s
    | some v => pyStr v
    | none => []
  | _ => []

/-- The synthetic retry notification (src/main.py line 181). -/
def retryNotice (result : List Char) : List Char :=
  "System Notification: Tool failed. Result: ".toList ++ result ++
    ". Try again with a different action or args (reply with JSON only).".toList

/-- The synthetic tool-feedback notification (src/main.py lines 187-190). -/
def toolFeedback (result : List Char) : List Char :=
  "System Notification: Tool executed. Result: ".toList ++ result ++
    ". Please summarize what you did to the user.".toList

/-- The re-prompt appended when the first oracle reply is empty
(src/main.py lines 158-161). -/
def emptyReplyNotice : List Char :=
  "System Notification: Please start your response with \x27Thinking Process:\x27 and then provide the JSON Action block.".toList

/-- A turn ends either with a final answer string or with an uncaught
exception (the `TypeError` that `parse_json_from_response` can raise);
alongside it we record the list of capability results produced by the
dispatches of the turn, in order. -/
abbrev TurnOutcome := Except (List Char) (List Char) × List (List Char)

/-- The `for attempt in range(MAX_TOOL_RETRIES + 1)` body (src/main.py lines
165-199).  `fuel` counts the loop iterations still permitted, so on the k-th
iteration `attempt = MAX_TOOL_RETRIES + 1 - fuel`; the entry point passes
`fuel = MAX_TOOL_RETRIES + 1`.  `calls` is the number of oracle calls already
made this turn, `response_text` the current (already stripped) oracle text,
and `results` the capability results dispatched so far. -/
def chatTurnLoop (env : Env) (user_input : List Char) :
    Nat → Nat → List Char → List (List Char) → TurnOutcome
  | 0, _, response_text, results => (Except.ok response_text, results)
  | fuel + 1, calls, response_text, results =>
    match parse_json_from_response env.jloads env.tools response_text with
    | ParseResult.raised e => (Except.error e, results)
    | ParseResult.none_ => (Except.ok response_text, results)
    | ParseResult.some_ d =>
      let action := actionOf d
      let args := argsOf env.pyStr d
      let result := _run_tool env.tools action args
      let attempt := MAX_TOOL_RETRIES + 1 - (fuel + 1)
      if classifyFailure result = true ∧ attempt < MAX_TOOL_RETRIES then
        let retry_messages :=
          _build_messages env.prompts env.store env.window user_input ++
            [Message.mk Role.user (retryNotice result)]
        chatTurnLoop env user_input fuel (calls + 1)
          (pyStrip (env.oracle calls retry_messages)) (results ++ [result])
      else
        let follow_up :=
          _build_messages env.prompts env.store env.window user_input ++
            [Message.mk Role.assistant response_text,
             Message.mk Role.user (toolFeedback result)]
        let summarized := pyStrip (env.oracle calls follow_up)
        (Except.ok (if summarized = [] then result else summarized), results ++ [result])

/-- `_chat_turn` (src/main.py lines 145-201): build context, call the oracle,
re-prompt once on an empty reply, then run the parse/dispatch/retry loop. -/
def _chat_turn (env : Env) (user_input : List Char) : TurnOutcome :=
  let messages := _build_messages env.prompts env.store env.window user_input
  let r0 := pyStrip (env.oracle 0 messages)
  let (r1, calls) :=
    if r0 = [] then
      (pyStrip (env.oracle 1 (messages ++ [Message.mk Role.user emptyReplyNotice])), 2)
    else (r0, 1)
  chatTurnLoop env user_input (MAX_TOOL_RETRIES + 1) calls r1 []

/-! ### Spec-side definitions

These two definitions follow the specification's words (not the source); they
exist only to be compared against the behaviour extracted from the source. -/

/-- Boolean contiguous-subsequence test (Python's `in` on strings). -/
def containsSeq (pat : List Char) : List Char → Bool
  | [] => pat.isEmpty
  | c :: t => pat.isPrefixOf (c :: t) || containsSeq pat t

/-- The failure-marker configuration named by the spec:
`{failureMarkers: ["error", "fail", "失败", "错误"]}`. -/
def specFailureMarkers : List (List Char) :=
  ["error".toList, "fail".toList, "失败".toList, "错误".toList]

/-- The spec's classifier: a result text is a failure iff it begins with or
contains one of the markers, case-insensitively (begins-with is subsumed by
contains). -/
def specFailureClassifier (text : List Char) : Bool :=
  specFailureMarkers.any (fun m => containsSeq m (pyLower text))

/-- First line of a string (up to the first newline). -/
def specFirstLine (s : List Char) : List Char :=
  s.takeWhile (fun c => !(c == '\n'))

/-- Collapse every maximal whitespace run to a single space. -/
def collapseWsAux : Bool → List Char → List Char
  | _, [] => []
  | prevWs, c :: t =>
    if pyIsSpace c then
      if prevWs then collapseWsAux true t else ' ' :: collapseWsAux true t
    else c :: collapseWsAux false t

/-- The spec's description rule: the first line of the handler's
documentation, whitespace-collapsed. -/
def specFirstLineDesc (doc : List Char) : List Char :=
  collapseWsAux false (specFirstLine (pyStrip doc))

/-! ### Concrete instances used by counterexamples and witnesses -/

/-- The external store honours the request size: a returned `documents` entry
never holds more texts than were requested (spec §6: `query(text, topK) →
ordered list of text`). -/
def storeHonest (st : Store) : Prop :=
  ∀ q k v rest, st.query q k = Except.ok (some (v :: rest)) →
    (match v with
     | StoreVal.lst xs => xs.length
     | StoreVal.single _ => 1) ≤ k

/-- A store holding zero entries whose `query` simply echoes back as many
documents as were requested of it. -/
def echoStore : Store :=
  ⟨0, fun _ k => Except.ok (some [StoreVal.lst (List.replicate k "doc".toList)])⟩
/-- A store whose `add` always raises. -/
def alwaysFailAdd : List Char → Option (List Char) := fun _ => some "disk full".toList
/-- A capability name absent from the startup registry. -/
def new_tool_name : List Char := "new_tool".toList

/-- A dynamically supplied capability. -/
def new_tool_fn : ToolFn :=
  ⟨"A dynamically registered capability.".toList, fun _ => HandlerResult.ok "registered!".toList⟩

/-- The registry after a runtime registration. -/
def grownRegistry : Registry :=
  AVAILABLE_TOOLS stubRun stubRun stubRun stubRun ++ [(new_tool_name, new_tool_fn)]

/-- A fixed empty environment for exercising context assembly. -/
def demoPrompts : Prompts := ⟨[], [], []⟩

/-- A store whose query always raises (recall degrades to no context). -/
def demoStore : Store := ⟨0, fun _ _ => Except.error []⟩
/-- Oracle output whose fenced JSON object carries a *list* as the `action`
value. -/
def unhashableActionText : List Char :=
  "\x60\x60\x60json\n\x7b\"action\": []\x7d\n\x60\x60\x60".toList

/-- `json.loads` on the fence content of `unhashableActionText`. -/
def demoDecodeC6 : List Char → Option Json := fun raw =>
  if raw = "\x7b\"action\": []\x7d".toList then
    some (Json.obj [("action".toList, Json.arr [])])
  else none
/-- Text with two fenced blocks: the first does not decode, the second holds
a well-formed registered action request. -/
def twoFenceText : List Char :=
  "\x60\x60\x60\nnot json\n\x60\x60\x60 later \x60\x60\x60json\n\x7b\"action\": \"read_file\", \"args\": \"a.txt\"\x7d\n\x60\x60\x60".toList

/-- The tail of `twoFenceText` after its first fenced block. -/
def secondFencePart : List Char :=
  " later \x60\x60\x60json\n\x7b\"action\": \"read_file\", \"args\": \"a.txt\"\x7d\n\x60\x60\x60".toList

/-- The JSON text inside the second fence of `twoFenceText`. -/
def validActionRaw : List Char :=
  "\x7b\"action\": \"read_file\", \"args\": \"a.txt\"\x7d".toList

/-- The decoded value of `validActionRaw`. -/
def readFileObj : Json :=
  Json.obj [("action".toList, Json.str "read_file".toList),
            ("args".toList, Json.str "a.txt".toList)]

/-- `json.loads` on the fence contents of `twoFenceText`: the first fence's
`not json` does not decode, the second fence's object does. -/
def demoDecodeC10 : List Char → Option Json := fun raw =>
  if raw = validActionRaw then some readFileObj else none

/-- A capability that always raises `boom`. -/
def boomTool : ToolFn := ⟨"Always raises.".toList, fun _ => HandlerResult.exn "boom".toList⟩

/-- A registry holding only `boom_tool`. -/
def boomRegistry : Registry := [("boom_tool".toList, boomTool)]

/-- The decoded action request naming `boom_tool`. -/
def boomObj : Json :=
  Json.obj [("action".toList, Json.str "boom_tool".toList),
            ("args".toList, Json.str "x".toList)]

/-- `json.loads` on the fence content of `boomFence`. -/
def demoDecodeC2 : List Char → Option Json := fun raw =>
  if raw = "\x7b\"action\": \"boom_tool\", \"args\": \"x\"\x7d".toList then some boomObj else none

/-- An oracle reply carrying a fenced `boom_tool` action request. -/
def boomFence : List Char :=
  "\x60\x60\x60json\n\x7b\"action\": \"boom_tool\", \"args\": \"x\"\x7d\n\x60\x60\x60".toList

/-- A turn environment whose oracle always answers `boomFence`, whose only
capability always raises, and whose store always fails (recall degrades). -/
def envC2 : Env :=
  { prompts := ⟨[], [], []⟩
  , store := ⟨0, fun _ _ => Except.error []⟩
  , window := []
  , tools := boomRegistry
  , jloads := demoDecodeC2
  , pyStr := fun _ => []
  , oracle := fun _ _ => boomFence }

/-! ### Helper lemmas -/

theorem isPrefixOf_iff_exists (p : List Char) :
    ∀ l : List Char, p.isPrefixOf l = true ↔ ∃ t, p ++ t = l := by
  induction p with
  | nil => intro l; simp [List.isPrefixOf]
  | cons a as ih =>
    intro l
    cases l with
    | nil => simp [List.isPrefixOf]
    | cons b bs =>
      simp only [List.isPrefixOf, Bool.and_eq_true, beq_iff_eq, ih bs]
      constructor
      · rintro ⟨rfl, t, rfl⟩; exact ⟨t, rfl⟩
      · rintro ⟨t, h⟩
        injection h with h1 h2
        exact ⟨h1, t, h2⟩

theorem containsSeq_intro (p : List Char) :
    ∀ (s t l : List Char), s ++ p ++ t = l → containsSeq p l = true := by
  intro s
  induction s with
  | nil =>
    intro t l h
    simp only [List.nil_append] at h
    subst h
    cases hpt : p ++ t with
    | nil =>
      have hp : p = [] := by
        cases p with
        | nil => rfl
        | cons x xs => simp at hpt
      subst hp; rfl
    | cons c cs =>
      simp only [containsSeq, Bool.or_eq_true]
      left
      rw [isPrefixOf_iff_exists]
      exact ⟨t, hpt⟩
  | cons a s' ih =>
    intro t l h
    subst h
    simp only [List.cons_append, containsSeq, Bool.or_eq_true]
    right
    exact ih t _ rfl

theorem dropWhile_append_stop (p : Char → Bool) (a : Char) (h : p a = false) :
    ∀ (l rest : List Char), ∃ u, List.dropWhile p (l ++ a :: rest) = u ++ a :: rest := by
  intro l
  induction l with
  | nil =>
    intro rest
    exact ⟨[], by simp [List.dropWhile, h]⟩
  | cons b l' ih =>
    intro rest
    by_cases hb : p b = true
    · obtain ⟨u, hu⟩ := ih rest
      exact ⟨u, by simp [List.dropWhile, hb, hu]⟩
    · exact ⟨b :: l', by simp [List.dropWhile, Bool.eq_false_iff.mpr hb] ⟩

/-- Any string of the form `"Error:" ++ t` is classified as a failure by the
loop's classifier: stripping keeps the `Error:` head, lowering makes it
`error:`. -/
theorem classify_error_concat (t : List Char) :
    classifyFailure ("Error:".toList ++ t) = true := by
  have hstrip : ∃ u, pyStrip ("Error:".toList ++ t) = "Error:".toList ++ u := by
    have hl : pyLstrip ("Error:".toList ++ t) = "Error:".toList ++ t := rfl
    have hrev : ("Error:".toList ++ t).reverse = t.reverse ++ (':' :: "rorrE".toList) := by
      rw [List.reverse_append]; rfl
    obtain ⟨u, hu⟩ :=
      dropWhile_append_stop pyIsSpace ':' (by decide) t.reverse "rorrE".toList
    refine ⟨(u.reverse), ?_⟩
    unfold pyStrip pyRstrip
    rw [hl, hrev, hu, List.reverse_append]
    rfl
  obtain ⟨u, hu⟩ := hstrip
  unfold classifyFailure
  rw [hu]
  unfold pyLower
  rw [List.map_append]
  rw [show ("Error:".toList.map Char.toLower = "error:".toList) from by decide]
  rw [isPrefixOf_iff_exists]
  exact ⟨':' :: u.map Char.toLower, rfl⟩

/-- A failure-classified result is nonempty. -/
theorem classifyFailure_ne_nil {r : List Char} (h : classifyFailure r = true) : r ≠ [] := by
  intro hr
  subst hr
  simp [classifyFailure, pyLower, pyStrip, pyLstrip, pyRstrip, List.isPrefixOf] at h

/-- The parser finds nothing in the empty string. -/
theorem parse_nil (jl : List Char → Option Json) (tools : Registry) :
    parse_json_from_response jl tools [] = ParseResult.none_ := rfl

/-- A successfully parsed action request can only come from nonempty text. -/
theorem parse_some_ne_nil {jl : List Char → Option Json} {tools : Registry}
    {rt : List Char} {d : Json}
    (h : parse_json_from_response jl tools rt = ParseResult.some_ d) : rt ≠ [] := by
  intro hrt
  subst hrt
  rw [parse_nil] at h
  exact ParseResult.noConfusion h

/-- `pyStrip` of a string is an inner segment of that string. -/
theorem pyStrip_segment (s : List Char) : ∃ a b, a ++ pyStrip s ++ b = s := by
  refine ⟨s.takeWhile pyIsSpace,
    ((pyLstrip s).reverse.takeWhile pyIsSpace).reverse, ?_⟩
  have h1 : s.takeWhile pyIsSpace ++ pyLstrip s = s :=
    List.takeWhile_append_dropWhile pyIsSpace s
  have h2 : pyStrip s ++ ((pyLstrip s).reverse.takeWhile pyIsSpace).reverse
      = pyLstrip s := by
    unfold pyStrip pyRstrip
    rw [← List.reverse_append]
    rw [List.takeWhile_append_dropWhile]
    exact List.reverse_reverse _
  rw [List.append_assoc, h2, h1]

/-! ### C1: success/failure classification -/

/-- C1 counterexample: the source classifier
(`result.strip().lower().startswith("error")`, src/main.py line 177) treats
the result text `"fail"` as a success, while the claimed marker rule
classifies it as a failure: the markers `"fail"`, `"失败"`, `"错误"` and the
contains-anywhere mode are not implemented. -/
theorem classifier_disagrees_on_fail :
    classifyFailure "fail".toList = false
      ∧ specFailureClassifier "fail".toList = true := by
  constructor <;> decide

/-- C1 (amended): a capability result is classified as a failure iff its
text, stripped of surrounding whitespace and lowercased, *begins with*
`"error"`; this implies (but is not equivalent to) the spec's
marker-containment rule. -/
theorem classifier_startswith_error_only (r : List Char) :
    (classifyFailure r = true ↔
      "error".toList.isPrefixOf (pyLower (pyStrip r)) = true)
    ∧ (classifyFailure r = true → specFailureClassifier r = true) := by
  refine ⟨Iff.rfl, fun h => ?_⟩
  unfold classifyFailure at h
  rw [isPrefixOf_iff_exists] at h
  obtain ⟨t, ht⟩ := h
  obtain ⟨a, b, hab⟩ := pyStrip_segment r
  have hr : pyLower r = pyLower a ++ ("error".toList ++ t) ++ pyLower b := by
    rw [ht]
    unfold pyLower
    rw [← List.map_append, ← List.map_append, hab]
  have hc : containsSeq "error".toList (pyLower r) = true :=
    containsSeq_intro "error".toList (pyLower a) (t ++ pyLower b) (pyLower r)
      (by rw [hr]; simp [List.append_assoc])
  simp only [specFailureClassifier, specFailureMarkers, List.any_cons, List.any_nil,
    Bool.or_eq_true]
  exact Or.inl hc

/-- C1 witness: a result that does start with an `Error` marker is classified
as a failure by both the code and the spec rule. -/
theorem classifier_startswith_error_only_witness :
    classifyFailure "Error: no such file".toList = true
      ∧ specFailureClassifier "Error: no such file".toList = true :=
  ⟨by decide, (classifier_startswith_error_only "Error: no such file".toList).2 (by decide)⟩

/-! ### C4: the capability description shown in the system prompt -/

/-- C4 counterexample: the description shown for `write_file` is *not* the
first line of its docstring whitespace-collapsed — `_build_tools_list`
(src/main.py line 47) keeps the entire docstring, only replacing each newline
by a space (the following indentation spaces survive uncollapsed), and the
line actually embedded in `TOOLS_LIST` contains the second docstring line. -/
theorem tool_desc_not_first_line :
    toolDesc write_file_doc ≠ specFirstLineDesc write_file_doc
      ∧ containsSeq ("- write_file: ".toList ++ toolDesc write_file_doc) TOOLS_LIST = true
      ∧ containsSeq "Supports ~ for user home".toList (toolDesc write_file_doc) = true := by
  refine ⟨by decide, by decide, by decide⟩

/-- C4 (amended): for every registered capability the description shown in
the system message's capability list is the *entire* docstring, stripped,
with each newline replaced by a single space and all other whitespace (in
particular the source indentation) preserved.  Concretely, the startup
`TOOLS_LIST` is exactly this string (note the five spaces where each
`"\n    "` of a docstring was substituted). -/
theorem tools_list_value :
    TOOLS_LIST =
      ("- write_file: Write content to a file. Args format: \"path|content\".     Supports ~ for user home (e.g. ~/Desktop/file.txt).\n- read_file: Read content from a file. Args format: \"path\".     Supports ~ for user home.\n- run_cmd: Execute a shell command. Args: the full command string.     Blocks dangerous operations (e.g. rm -rf).\n- search_web: Search the internet for real-time information.     Args format: \"query\" (e.g., \"latest bitcoin price\", \"who won the super bowl\").     Returns a summary of the top 3 search results (title, description, URL).     Use whenever the user asks for current events, prices, or facts you don\x27t know.").toList := by
  decide

/-! ### C5: memory recall -/


/-- C5 counterexample: on an *empty* store (`count() = 0`), a non-empty query
still reaches the store with `n_results = 1` — `min(n_results, count() or 1)`
(src/memory.py line 54) clamps to 1, not to the 0 entries actually available,
as witnessed by one document flowing back from a store holding none. -/
theorem empty_store_still_queried :
    echoStore.count = 0
      ∧ n_requested echoStore.count 2 = 1
      ∧ MemoryBank.recall echoStore "hello".toList 2 = ["doc".toList] := by
  refine ⟨rfl, by decide, by decide⟩

/-- C5 (amended): recall of an empty/whitespace-only query returns `[]` for
*every* store behaviour (so the store is never consulted); for a non-empty
query the store request size is `min(topK, count)` when the store is
non-empty but `min(topK, 1)` when it is empty; and the result has length at
most `topK` whenever the store honours the request size. -/
theorem recall_contract (st : Store) (q : List Char) (n : Nat) :
    (pyStrip q = [] → MemoryBank.recall st q n = [])
    ∧ (storeHonest st → (MemoryBank.recall st q n).length ≤ n)
    ∧ (st.count ≠ 0 → n_requested st.count n = min n st.count)
    ∧ (st.count = 0 → n_requested st.count n = min n 1) := by
  refine ⟨fun h => by simp [MemoryBank.recall, h], fun hon => ?_, fun h => ?_, fun h => ?_⟩
  · unfold MemoryBank.recall
    by_cases hq : pyStrip q = []
    · simp [hq]
    · simp only [hq, if_false]
      cases hquery : st.query (pyStrip q) (n_requested st.count n) with
      | error e => simp
      | ok docs =>
        cases docs with
        | none => simp
        | some entries =>
          cases entries with
          | nil => simp
          | cons v rest =>
            have hb := hon (pyStrip q) (n_requested st.count n) v rest hquery
            have hreq : n_requested st.count n ≤ n := min_le_left _ _
            cases v with
            | lst xs => simpa using le_trans hb hreq
            | single s => simpa using le_trans hb hreq
  · simp [n_requested, h]
  · simp [n_requested, h]

/-- C5 witness: on a store with three entries that always answers "no
documents", the whitespace-query rule and the length bound hold at `topK = 2`,
and the request clamp is `min 2 3 = 2`. -/
theorem recall_contract_witness :
    MemoryBank.recall ⟨3, fun _ _ => Except.ok none⟩ "   ".toList 2 = []
      ∧ (MemoryBank.recall ⟨3, fun _ _ => Except.ok none⟩ "hello".toList 2).length ≤ 2
      ∧ n_requested 3 2 = min 2 3 :=
  ⟨(recall_contract ⟨3, fun _ _ => Except.ok none⟩ "   ".toList 2).1 (by decide),
   (recall_contract ⟨3, fun _ _ => Except.ok none⟩ "hello".toList 2).2.1
     (fun q k v rest h => by exact absurd h (by simp)),
   (recall_contract ⟨3, fun _ _ => Except.ok none⟩ "hello".toList 2).2.2.1 (by decide)⟩

/-! ### C8: long-term log writes -/


/-- C8 counterexample: when the store's `add` fails on the original text *and*
on the diagnostic fallback, `MemoryBank.add_log` raises to its caller — the
fallback `self._collection.add(...)` of src/memory.py lines 40-44 sits outside
the `try`, so the write operation is not exception-free for every store
behaviour. -/
theorem add_log_can_raise :
    MemoryBank.add_log alwaysFailAdd "hello".toList = Except.error "disk full".toList := rfl

/-- C8 (amended): `add_log` records the text when the add succeeds; when the
add fails once, it records a best-effort diagnostic entry embedding both the
original text and the error — *provided* the fallback add succeeds; when the
fallback add also fails, the exception propagates to the caller. -/
theorem add_log_contract (beh : List Char → Option (List Char)) (text : List Char) :
    (beh text = none → MemoryBank.add_log beh text = Except.ok [text])
    ∧ (∀ e, beh text = some e → beh (diagDoc text e) = none →
        MemoryBank.add_log beh text = Except.ok [diagDoc text e]
        ∧ (∃ u v, u ++ text ++ v = diagDoc text e)
        ∧ (∃ u v, u ++ e ++ v = diagDoc text e))
    ∧ (∀ e e2, beh text = some e → beh (diagDoc text e) = some e2 →
        MemoryBank.add_log beh text = Except.error e2) := by
  refine ⟨fun h => by simp [MemoryBank.add_log, h], fun e h1 h2 => ?_, fun e e2 h1 h2 => ?_⟩
  · refine ⟨by simp [MemoryBank.add_log, h1, h2], ?_, ?_⟩
    · exact ⟨"[add_log error] ".toList, " (error: ".toList ++ e ++ ")".toList,
        by simp [diagDoc, List.append_assoc]⟩
    · exact ⟨"[add_log error] ".toList ++ text ++ " (error: ".toList, ")".toList,
        by simp [diagDoc, List.append_assoc]⟩
  · simp [MemoryBank.add_log, h1, h2]

/-- C8 witness: a store that rejects exactly the document `"boom"` makes
`add_log` fall back to recording the diagnostic entry, without raising. -/
theorem add_log_contract_witness :
    MemoryBank.add_log
        (fun d => if d = "boom".toList then some "io error".toList else none)
        "boom".toList
      = Except.ok [diagDoc "boom".toList "io error".toList] :=
  ((add_log_contract
      (fun d => if d = "boom".toList then some "io error".toList else none)
      "boom".toList).2.1 "io error".toList (by decide) (by decide)).1

/-! ### C3: dynamic registration vs. the startup capability list -/

/-- Key lookup finds an entry appended to the registry (registration is a
plain dict insert; lookup is exact-match). -/
theorem lookup_appended_entry (name : List Char) (f : ToolFn) :
    ∀ tools : Registry, (tools.map Prod.fst).contains name = false →
      List.lookup name (tools ++ [(name, f)]) = some f := by
  intro tools
  induction tools with
  | nil => intro _; simp [List.lookup]
  | cons kv rest ih =>
    intro h
    simp only [List.map_cons, List.contains_cons, Bool.or_eq_false_iff] at h
    have hne : (name == kv.1) = false := by
      cases hbe : name == kv.1
      · rfl
      · exfalso
        have heq : name = kv.1 := by simpa [beq_iff_eq] using hbe
        have h1 := h.1
        rw [heq] at h1
        simp at h1
    have hstep : List.lookup name ((kv :: rest) ++ [(name, f)])
        = List.lookup name (rest ++ [(name, f)]) := by
      cases kv with
      | mk k v => simp [List.lookup, hne]
    rw [hstep]
    exact ih h.2


/-- C3 counterexample: after the registry has grown with `new_tool` (which
dispatch-time lookup does find, and which a fresh `_build_tools_list` run
would show), the very next context assembly still advertises only the startup
snapshot: `new_tool` does not occur in the system message, because
`_build_messages` (src/main.py line 85) uses the constant `TOOLS_LIST`
computed once at import time (src/main.py line 52). -/
theorem registration_not_in_next_assembly :
    List.lookup new_tool_name grownRegistry = some new_tool_fn
      ∧ containsSeq new_tool_name (_build_tools_list grownRegistry) = true
      ∧ ((_build_messages demoPrompts demoStore [] "hi".toList).head?).map
          (fun m => containsSeq new_tool_name m.content) = some false := by
  refine ⟨rfl, by decide, by decide⟩

/-- C3 (amended): the registry can grow at runtime and parse/dispatch consult
the live registry — an appended entry is immediately reachable by `_run_tool`
— but the capability list in the system message is the startup constant
`TOOLS_LIST`: every context assembly embeds it no matter how the registry has
changed since import. -/
theorem registration_dispatch_vs_context (tools : Registry) (name : List Char)
    (f : ToolFn) (args : List Char) :
    ((tools.map Prod.fst).contains name = false →
      _run_tool (tools ++ [(name, f)]) name args =
        (match f.run args with
         | HandlerResult.ok s => s
         | HandlerResult.exn e => "Error: ".toList ++ e))
    ∧ (∀ (p : Prompts) (st : Store) (w : List Message) (u : List Char),
        (_build_messages p st w u).head? =
          some (Message.mk Role.system
            (_build_system_prompt p TOOLS_LIST
              (memoryContext (MemoryBank.recall st u 2))))) := by
  refine ⟨fun h => ?_, fun p st w u => rfl⟩
  unfold _run_tool
  rw [lookup_appended_entry name f tools h]

/-- C3 witness: dispatching the freshly registered `new_tool` runs its
handler. -/
theorem registration_dispatch_vs_context_witness :
    _run_tool grownRegistry new_tool_name "x".toList = "registered!".toList :=
  (registration_dispatch_vs_context
    (AVAILABLE_TOOLS stubRun stubRun stubRun stubRun)
    new_tool_name new_tool_fn "x".toList).1 (by decide)

/-! ### C9: shape of the assembled message list -/

/-- C9: `_build_messages` yields exactly one system message first, then at
most the last `SHORT_TERM_CAP * 2` window messages in their original order
(they form a suffix of the window), then the current user message last,
regardless of the window's total length. -/
theorem build_messages_shape (p : Prompts) (st : Store) (window : List Message)
    (u : List Char) :
    _build_messages p st window u =
        Message.mk Role.system
            (_build_system_prompt p TOOLS_LIST
              (memoryContext (MemoryBank.recall st u 2)))
          :: (pyTakeLast (SHORT_TERM_CAP * 2) window ++ [Message.mk Role.user u])
      ∧ (pyTakeLast (SHORT_TERM_CAP * 2) window).length ≤ SHORT_TERM_CAP * 2
      ∧ ∃ dropped, dropped ++ pyTakeLast (SHORT_TERM_CAP * 2) window = window := by
  refine ⟨rfl, ?_, ?_⟩
  · unfold pyTakeLast
    rw [List.length_drop]
    omega
  · exact ⟨window.take (window.length - SHORT_TERM_CAP * 2),
      List.take_append_drop _ _⟩

/-! ### C7: the capability executor never propagates exceptions -/

/-- C7: `_run_tool` is a total function of the registry state: an action
missing from the registry at dispatch time yields the
`Error: unknown tool '...'` text, and a handler that raises yields
`Error: <message>`; both outcomes are classified as failures by the loop's
classifier. -/
theorem run_tool_absorbs_exceptions (tools : Registry) (action args : List Char) :
    (List.lookup action tools = none →
      _run_tool tools action args =
          "Error: unknown tool \x27".toList ++ action ++ "\x27".toList
        ∧ classifyFailure (_run_tool tools action args) = true)
    ∧ (∀ f e, List.lookup action tools = some f → f.run args = HandlerResult.exn e →
        _run_tool tools action args = "Error: ".toList ++ e
        ∧ classifyFailure (_run_tool tools action args) = true) := by
  constructor
  · intro h
    have hv : _run_tool tools action args =
        "Error: unknown tool \x27".toList ++ action ++ "\x27".toList := by
      simp [_run_tool, h]
    refine ⟨hv, ?_⟩
    rw [hv]
    have hsplit : "Error: unknown tool \x27".toList ++ action ++ "\x27".toList =
        "Error:".toList ++ (" unknown tool \x27".toList ++ action ++ "\x27".toList) := by
      simp [List.append_assoc]
    rw [hsplit]
    exact classify_error_concat _
  · intro f e hf he
    have hv : _run_tool tools action args = "Error: ".toList ++ e := by
      simp [_run_tool, hf, he]
    refine ⟨hv, ?_⟩
    rw [hv]
    have hsplit : "Error: ".toList ++ e = "Error:".toList ++ (' ' :: e) := by
      simp [List.append_assoc]
    rw [hsplit]
    exact classify_error_concat _

/-- C7 witness: with a one-tool registry whose handler raises `boom`, both a
registry miss and the raising handler produce failure-classified `Error:`
texts. -/
theorem run_tool_absorbs_exceptions_witness :
    _run_tool [("boom_tool".toList, ⟨[], fun _ => HandlerResult.exn "boom".toList⟩)]
        "missing".toList "a".toList
      = "Error: unknown tool \x27missing\x27".toList
    ∧ _run_tool [("boom_tool".toList, ⟨[], fun _ => HandlerResult.exn "boom".toList⟩)]
        "boom_tool".toList "a".toList
      = "Error: boom".toList :=
  ⟨by
    have h := (run_tool_absorbs_exceptions
      [("boom_tool".toList, ⟨[], fun _ => HandlerResult.exn "boom".toList⟩)]
      "missing".toList "a".toList).1 (by rfl)
    simpa using h.1,
   by
    have h := (run_tool_absorbs_exceptions
      [("boom_tool".toList, ⟨[], fun _ => HandlerResult.exn "boom".toList⟩)]
      "boom_tool".toList "a".toList).2
      ⟨[], fun _ => HandlerResult.exn "boom".toList⟩ "boom".toList (by rfl) (by rfl)
    simpa using h.1⟩

/-! ### C6: parser robustness (code bug) -/


/-- C6: the claim says `parse` never raises and returns `none` whenever the
decoded object lacks a registered string `action`; the code instead raises
`TypeError: unhashable type: 'list'` on the membership test
`data.get("action") in AVAILABLE_TOOLS` (src/main.py line 111) when the
`action` value is a JSON array (or object) — `except json.JSONDecodeError`
(line 113) does not catch it, so the exception escapes to `_chat_turn`. -/
theorem parse_raises_on_unhashable_action :
    parse_json_from_response demoDecodeC6
        (AVAILABLE_TOOLS stubRun stubRun stubRun stubRun) unhashableActionText
      = ParseResult.raised "unhashable type: \x27list\x27".toList := rfl

/-! ### C10: only the first fenced block is examined -/

/-- C10: the parser commits to the *first* fenced block: whenever the first
fence's content fails to decode or decodes to something that is not a
registered action request, `parse_json_from_response` returns `None` — it
never falls back to a later fence, whatever the rest of the text contains. -/
theorem parse_first_fence_only (jl : List Char → Option Json) (tools : Registry)
    (text raw : List Char)
    (hfence : extractFenced (pyStrip text) = some raw)
    (hbad : ∀ d, jl raw = some d → checkAction tools d = ParseResult.none_) :
    parse_json_from_response jl tools text = ParseResult.none_ := by
  show (match extractFenced (pyStrip text) with
    | none => ParseResult.none_
    | some raw =>
      match jl raw with
      | none => ParseResult.none_
      | some d => checkAction tools d) = ParseResult.none_
  rw [hfence]
  show (match jl raw with
    | none => ParseResult.none_
    | some d => checkAction tools d) = ParseResult.none_
  cases hj : jl raw with
  | none => rfl
  | some d => exact hbad d hj


/-- C10 witness: in `twoFenceText` the later fence alone holds a valid,
registered action request, yet the parser returns `None` because the first
fence's content does not decode. -/
theorem parse_first_fence_only_witness :
    twoFenceText = "\x60\x60\x60\nnot json\n\x60\x60\x60".toList ++ secondFencePart
      ∧ extractFenced secondFencePart = some validActionRaw
      ∧ checkAction (AVAILABLE_TOOLS stubRun stubRun stubRun stubRun) readFileObj
          = ParseResult.some_ readFileObj
      ∧ parse_json_from_response demoDecodeC10
          (AVAILABLE_TOOLS stubRun stubRun stubRun stubRun) twoFenceText
          = ParseResult.none_ := by
  refine ⟨rfl, rfl, rfl, ?_⟩
  refine parse_first_fence_only demoDecodeC10 _ twoFenceText "not json".toList rfl ?_
  intro d hd
  have hnone : demoDecodeC10 "not json".toList = none := rfl
  rw [hnone] at hd
  exact Option.noConfusion hd


/-! ### C2: dispatch bound and nonempty final answer -/

/-- `_run_tool` on a registry miss: the unknown-tool error text, failure-classified. -/
theorem run_tool_lookup_none (tools : Registry) (action args : List Char)
    (h : List.lookup action tools = none) :
    _run_tool tools action args =
        "Error: unknown tool \x27".toList ++ action ++ "\x27".toList
    ∧ classifyFailure (_run_tool tools action args) = true := by
  have hv : _run_tool tools action args =
      "Error: unknown tool \x27".toList ++ action ++ "\x27".toList := by
    simp [_run_tool, h]
  refine ⟨hv, ?_⟩
  rw [hv]
  have hsplit : "Error: unknown tool \x27".toList ++ action ++ "\x27".toList =
      "Error:".toList ++ (" unknown tool \x27".toList ++ action ++ "\x27".toList) := by
    simp [List.append_assoc]
  rw [hsplit]
  exact classify_error_concat _

theorem run_tool_lookup_exn (tools : Registry) (action args : List Char)
    (f : ToolFn) (e : List Char)
    (h1 : List.lookup action tools = some f) (h2 : f.run args = HandlerResult.exn e) :
    _run_tool tools action args = "Error: ".toList ++ e
    ∧ classifyFailure (_run_tool tools action args) = true := by
  have hv : _run_tool tools action args = "Error: ".toList ++ e := by
    simp [_run_tool, h1, h2]
  refine ⟨hv, ?_⟩
  rw [hv]
  have hsplit : "Error: ".toList ++ e = "Error:".toList ++ (' ' :: e) := by
    simp [List.append_assoc]
  rw [hsplit]
  exact classify_error_concat _

/-- The trace of capability results grows by at most one per remaining loop
iteration. -/
theorem chatTurnLoop_trace_le (env : Env) (u : List Char) :
    ∀ fuel k rt tr, (chatTurnLoop env u fuel k rt tr).2.length ≤ tr.length + fuel := by
  intro fuel
  induction fuel with
  | zero => intro k rt tr; simp [chatTurnLoop]
  | succ f ih =>
    intro k rt tr
    rw [chatTurnLoop]
    cases hp : parse_json_from_response env.jloads env.tools rt with
    | raised e => simp
    | none_ => simp
    | some_ d =>
      simp only []
      split
      · calc (chatTurnLoop env u f (k + 1) _ _).2.length
            ≤ (tr ++ [_run_tool env.tools (actionOf d) (argsOf env.pyStr d)]).length + f := ih _ _ _
          _ = tr.length + (f + 1) := by simp [List.length_append]; omega
      · simp [List.length_append]

/-- When every oracle reply parses to an action request and every dispatch
result is failure-classified, the loop consumes all its fuel — one dispatch
per iteration — and still ends with a non-empty `ok` answer (the summarizing
reply, or the raw failing result text as fallback). -/
theorem chatTurnLoop_allfail (env : Env) (u : List Char)
    (Hp : ∀ k m, ∃ d, parse_json_from_response env.jloads env.tools
        (pyStrip (env.oracle k m)) = ParseResult.some_ d)
    (Hf : ∀ a b, classifyFailure (_run_tool env.tools a b) = true) :
    ∀ fuel k rt tr,
      (∃ d, parse_json_from_response env.jloads env.tools rt = ParseResult.some_ d) →
      (chatTurnLoop env u fuel k rt tr).2.length = tr.length + fuel
      ∧ ∃ ans, (chatTurnLoop env u fuel k rt tr).1 = Except.ok ans ∧ ans ≠ [] := by
  intro fuel
  induction fuel with
  | zero =>
    rintro k rt tr ⟨d, hd⟩
    exact ⟨by simp [chatTurnLoop], rt, rfl, parse_some_ne_nil hd⟩
  | succ f ih =>
    rintro k rt tr ⟨d, hd⟩
    rw [chatTurnLoop, hd]
    simp only []
    cases f with
    | zero =>
      rw [if_neg (by rintro ⟨_, hlt⟩; revert hlt; decide)]
      refine ⟨by simp [List.length_append], ?_⟩
      by_cases hs : pyStrip (env.oracle k
          (_build_messages env.prompts env.store env.window u ++
            [Message.mk Role.assistant rt,
             Message.mk Role.user (toolFeedback (_run_tool env.tools (actionOf d) (argsOf env.pyStr d)))])) = []
      · exact ⟨_, by rw [if_pos hs], classifyFailure_ne_nil (Hf _ _)⟩
      · exact ⟨_, by rw [if_neg hs], hs⟩
    | succ f' =>
      rw [if_pos ⟨Hf _ _, by simp [MAX_TOOL_RETRIES]; omega⟩]
      obtain ⟨hlen, hans⟩ := ih (k + 1)
        (pyStrip (env.oracle k (_build_messages env.prompts env.store env.window u ++
          [Message.mk Role.user (retryNotice (_run_tool env.tools (actionOf d) (argsOf env.pyStr d)))])))
        (tr ++ [_run_tool env.tools (actionOf d) (argsOf env.pyStr d)])
        (Hp k _)
      refine ⟨?_, hans⟩
      rw [hlen]
      simp [List.length_append]
      omega

/-- C2: a turn performs at most `MAX_TOOL_RETRIES + 1` dispatch attempts for
any oracle, decoder, registry and window; and when every oracle reply carries
an action request and every capability result is failure-classified, exactly
`MAX_TOOL_RETRIES + 1` dispatches happen (the initial attempt plus
`MAX_TOOL_RETRIES` retries) and the final answer is a non-empty string —
an empty summarizing reply falls back to the raw capability result text. -/
theorem turn_dispatch_bound (env : Env) (u : List Char) :
    (_chat_turn env u).2.length ≤ MAX_TOOL_RETRIES + 1
    ∧ ((∀ k m, ∃ d, parse_json_from_response env.jloads env.tools
          (pyStrip (env.oracle k m)) = ParseResult.some_ d) →
       (∀ a b, classifyFailure (_run_tool env.tools a b) = true) →
       (_chat_turn env u).2.length = MAX_TOOL_RETRIES + 1
       ∧ ∃ ans, (_chat_turn env u).1 = Except.ok ans ∧ ans ≠ []) := by
  constructor
  · simp only [_chat_turn]
    split
    · simpa using chatTurnLoop_trace_le env u (MAX_TOOL_RETRIES + 1) 2 _ []
    · simpa using chatTurnLoop_trace_le env u (MAX_TOOL_RETRIES + 1) 1 _ []
  · intro Hp Hf
    simp only [_chat_turn]
    split
    · obtain ⟨hlen, hans⟩ := chatTurnLoop_allfail env u Hp Hf
        (MAX_TOOL_RETRIES + 1) 2 _ [] (Hp 1 _)
      exact ⟨by simpa using hlen, hans⟩
    · obtain ⟨hlen, hans⟩ := chatTurnLoop_allfail env u Hp Hf
        (MAX_TOOL_RETRIES + 1) 1 _ [] (Hp 0 _)
      exact ⟨by simpa using hlen, hans⟩

/-- Every dispatch against `boomRegistry` yields a failure-classified result. -/
theorem boom_all_fail : ∀ a b, classifyFailure (_run_tool boomRegistry a b) = true := by
  intro a b
  cases hl : List.lookup a boomRegistry with
  | none => exact (run_tool_lookup_none boomRegistry a b hl).2
  | some f =>
    have hl' := hl
    simp only [boomRegistry, List.lookup] at hl'
    have hf : f = boomTool := by
      cases hbe : a == "boom_tool".toList
      · rw [hbe] at hl'
        exact absurd hl' (by simp)
      · rw [hbe] at hl'
        have hsome : some boomTool = some f := hl'
        injection hsome with h
        exact h.symm
    exact (run_tool_lookup_exn boomRegistry a b f "boom".toList hl
      (by rw [hf]; rfl)).2

/-- Every oracle reply of `envC2` parses to the `boom_tool` request. -/
theorem boom_always_parses : ∀ k m, ∃ d, parse_json_from_response envC2.jloads envC2.tools
    (pyStrip (envC2.oracle k m)) = ParseResult.some_ d := by
  intro k m
  exact ⟨boomObj, rfl⟩

/-- C2 witness: in `envC2` every attempt fails, the turn performs exactly
`MAX_TOOL_RETRIES + 1` dispatches, and the final answer is the (non-empty)
summarizing reply. -/
theorem turn_dispatch_bound_witness :
    (_chat_turn envC2 "hi".toList).2.length = MAX_TOOL_RETRIES + 1
    ∧ (_chat_turn envC2 "hi".toList).1 = Except.ok boomFence := by
  have h := (turn_dispatch_bound envC2 "hi".toList).2 boom_always_parses boom_all_fail
  exact ⟨h.1, by rfl⟩

end Agent
